import Mathlib

/-!
Shallow embedding of `src/demo_progress.py` (pyrunner repository).

The script is a sequential progress emitter: it runs one of two canned
simulations chosen from `sys.argv`, each of which writes lines to standard
output, flushes after every write, and sleeps a fixed interval per step.
We embed each run as a finite trace of observable events (`write`, `flush`,
`sleep`) in program order, and the dispatch of `__main__` as a function of
the argument vector.  Percentages are modelled over `ℚ`: the Python source
computes `(i / N) * 100` in IEEE double and formats it with `:.1f`, and at
every point the program evaluates (`N = 10`, `i = 1..10`) the double result
rounds to the same one-decimal string as the exact rational, so the
rational model agrees with the source on every displayed value.
-/

namespace DemoProgress

/-- One observable step of the script: a line written to stdout
(one `print` call, without the trailing newline), an explicit
`sys.stdout.flush()`, or a `time.sleep` of the given number of
milliseconds. -/
inductive Event where
  | write (line : String)
  | flush
  | sleep (ms : Nat)
deriving DecidableEq

/-- Format a rational with exactly one decimal digit, as Python's `:.1f`
does for the (nonnegative, tie-free) values this program produces:
round to the nearest tenth, print the integer part, a dot, and the
tenths digit. -/
def fmt1 (q : ℚ) : String :=
  let n : ℤ := round (10 * q)
  toString (n / 10) ++ "." ++ toString (n % 10)

/-- The constant `total_steps = 10` of `simulate_long_task`. -/
def total_steps : Nat := 10

/-- The percentage string displayed by `simulate_long_task` at step `i`:
`(i / total_steps) * 100` formatted to one decimal place. -/
def longTaskPct (i : Nat) : String :=
  fmt1 ((i : ℚ) / (total_steps : ℚ) * 100)

/-- The body of one loop iteration of `simulate_long_task`: sleep 0.1 s,
print the progress line, flush, and when `i == 10` print the checkpoint
line and flush. -/
def longTaskStep (i : Nat) : List Event :=
  [Event.sleep 100,
   Event.write ("进度: " ++ longTaskPct i ++ "% - " ++
     "正在处理步骤 " ++ toString i ++ "/" ++ toString total_steps),
   Event.flush]
  ++ (if i = 10 then
        [Event.write "中途检查点：任务进行顺利", Event.flush]
      else [])

/-- Event trace of `simulate_long_task()`: the opening line, the ten loop
iterations for `i = 1..total_steps`, and the completion line, each print
followed by a flush. -/
def simulate_long_task : List Event :=
  [Event.write "开始执行耗时任务...", Event.flush]
  ++ ((List.range total_steps).map (fun k => longTaskStep (k + 1))).flatten
  ++ [Event.write "任务执行完成！", Event.flush]

/-- The fixed label list `data_items` of `simulate_data_processing`. -/
def data_items : List String :=
  ["处理用户数据",
   "验证数据格式",
   "清理无效数据",
   "计算统计信息",
   "生成报告",
   "保存结果到数据库",
   "发送通知邮件",
   "清理临时文件",
   "更新缓存",
   "完成任务"]

/-- The percentage string displayed by `simulate_data_processing` at step
`i`: `(i / len(data_items)) * 100` formatted to one decimal place. -/
def dataPct (i : Nat) : String :=
  fmt1 ((i : ℚ) / (data_items.length : ℚ) * 100)

/-- The body of one loop iteration of `simulate_data_processing` for the
1-based index `i` and label `item`: sleep 0.8 s, print the progress line,
flush. -/
def dataStep (i : Nat) (item : String) : List Event :=
  [Event.sleep 800,
   Event.write ("进度: " ++ dataPct i ++ "% - " ++ item),
   Event.flush]

/-- Event trace of `simulate_data_processing()`: the opening line, one
iteration per entry of `data_items` (enumerated from 1), and the
completion line, each print followed by a flush. -/
def simulate_data_processing : List Event :=
  [Event.write "开始数据处理任务...", Event.flush]
  ++ (data_items.enum.map (fun p => dataStep (p.1 + 1) p.2)).flatten
  ++ [Event.write "数据处理完成！", Event.flush]

/-- The `__main__` dispatch: run `simulate_data_processing` exactly when
`len(sys.argv) > 1 and sys.argv[1] == "data"`, otherwise run
`simulate_long_task`.  `argv` is the full `sys.argv`, with the script
name at index 0. -/
def progMain (argv : List String) : List Event :=
  match argv with
  | _ :: a1 :: _ =>
      if a1 = "data" then simulate_data_processing else simulate_long_task
  | _ => simulate_long_task

/-- The lines a trace writes to stdout, in order. -/
def outputLines (es : List Event) : List String :=
  es.filterMap (fun e =>
    match e with
    | Event.write s => some s
    | _ => none)

/-- A line has the single-line JSON-object shape of the spec's
machine-readable protocol: its first character is an opening brace
(code point 123). -/
def isJsonLine (l : String) : Bool :=
  l.data.head? == some (Char.ofNat 123)

/-- A human-readable progress line of either variant: it starts with the
four characters of the `进度: ` label. -/
def isProgressLine (l : String) : Bool :=
  List.isPrefixOf "进度: ".data l.data

/-- The spec's `round(x, 1)`, over exact rationals: the multiple of `1/10`
nearest to `x`. -/
def specRound1 (x : ℚ) : ℚ :=
  (round (10 * x) : ℚ) / 10

/-- Every `write` event in the trace is immediately followed by a `flush`
event (in particular, before any further `sleep` or `write`). -/
def writesFlushed : List Event → Bool
  | [] => true
  | Event.write _ :: rest =>
      match rest with
      | Event.flush :: _ => writesFlushed rest
      | _ => false
  | _ :: rest => writesFlushed rest

/-- The state an execution of the script interacts with: the current clock
reading (the only run-dependent part of the environment the script
touches, via `time.sleep`) and the lines accumulated on stdout. -/
structure EmitterState where
  now : Nat
  out : List String
deriving DecidableEq

/-- Effect of one event on the environment: a `write` appends its line to
stdout, a `flush` changes nothing observable at this granularity, and a
`sleep` advances the clock. -/
def stepEvent (w : EmitterState) : Event → EmitterState
  | Event.write s => { w with out := w.out ++ [s] }
  | Event.flush => w
  | Event.sleep d => { w with now := w.now + d }

/-- Run a trace from a given state. -/
def runEvents (w : EmitterState) (es : List Event) : EmitterState :=
  es.foldl stepEvent w

/-- Run the whole script from a given start time with the given argument
vector, starting from an empty stdout. -/
def runProgram (startTime : Nat) (argv : List String) : EmitterState :=
  runEvents ⟨startTime, []⟩ (progMain argv)

end DemoProgress

namespace DemoProgress

lemma fmt1_eval (q : ℚ) (m : ℕ) (h : 10 * q = (m : ℚ)) :
    fmt1 q = toString ((m : ℤ) / 10) ++ "." ++ toString ((m : ℤ) % 10) := by
  unfold fmt1
  rw [h, round_natCast]

lemma longTaskPct_one : longTaskPct 1 = "10.0" := by
  unfold longTaskPct; rw [fmt1_eval _ 100 (by norm_num [total_steps])]; rfl

lemma longTaskPct_two : longTaskPct 2 = "20.0" := by
  unfold longTaskPct; rw [fmt1_eval _ 200 (by norm_num [total_steps])]; rfl

lemma longTaskPct_three : longTaskPct 3 = "30.0" := by
  unfold longTaskPct; rw [fmt1_eval _ 300 (by norm_num [total_steps])]; rfl

lemma longTaskPct_four : longTaskPct 4 = "40.0" := by
  unfold longTaskPct; rw [fmt1_eval _ 400 (by norm_num [total_steps])]; rfl

lemma longTaskPct_five : longTaskPct 5 = "50.0" := by
  unfold longTaskPct; rw [fmt1_eval _ 500 (by norm_num [total_steps])]; rfl

lemma longTaskPct_six : longTaskPct 6 = "60.0" := by
  unfold longTaskPct; rw [fmt1_eval _ 600 (by norm_num [total_steps])]; rfl

lemma longTaskPct_seven : longTaskPct 7 = "70.0" := by
  unfold longTaskPct; rw [fmt1_eval _ 700 (by norm_num [total_steps])]; rfl

lemma longTaskPct_eight : longTaskPct 8 = "80.0" := by
  unfold longTaskPct; rw [fmt1_eval _ 800 (by norm_num [total_steps])]; rfl

lemma longTaskPct_nine : longTaskPct 9 = "90.0" := by
  unfold longTaskPct; rw [fmt1_eval _ 900 (by norm_num [total_steps])]; rfl

lemma longTaskPct_ten : longTaskPct 10 = "100.0" := by
  unfold longTaskPct; rw [fmt1_eval _ 1000 (by norm_num [total_steps])]; rfl

lemma dataPct_one : dataPct 1 = "10.0" := by
  unfold dataPct; rw [fmt1_eval _ 100 (by norm_num [data_items])]; rfl

lemma dataPct_two : dataPct 2 = "20.0" := by
  unfold dataPct; rw [fmt1_eval _ 200 (by norm_num [data_items])]; rfl

lemma dataPct_three : dataPct 3 = "30.0" := by
  unfold dataPct; rw [fmt1_eval _ 300 (by norm_num [data_items])]; rfl

lemma dataPct_four : dataPct 4 = "40.0" := by
  unfold dataPct; rw [fmt1_eval _ 400 (by norm_num [data_items])]; rfl

lemma dataPct_five : dataPct 5 = "50.0" := by
  unfold dataPct; rw [fmt1_eval _ 500 (by norm_num [data_items])]; rfl

lemma dataPct_six : dataPct 6 = "60.0" := by
  unfold dataPct; rw [fmt1_eval _ 600 (by norm_num [data_items])]; rfl

lemma dataPct_seven : dataPct 7 = "70.0" := by
  unfold dataPct; rw [fmt1_eval _ 700 (by norm_num [data_items])]; rfl

lemma dataPct_eight : dataPct 8 = "80.0" := by
  unfold dataPct; rw [fmt1_eval _ 800 (by norm_num [data_items])]; rfl

lemma dataPct_nine : dataPct 9 = "90.0" := by
  unfold dataPct; rw [fmt1_eval _ 900 (by norm_num [data_items])]; rfl

lemma dataPct_ten : dataPct 10 = "100.0" := by
  unfold dataPct; rw [fmt1_eval _ 1000 (by norm_num [data_items])]; rfl

lemma longLines_eval : outputLines simulate_long_task =
    ["开始执行耗时任务...",
     "进度: 10.0% - 正在处理步骤 1/10",
     "进度: 20.0% - 正在处理步骤 2/10",
     "进度: 30.0% - 正在处理步骤 3/10",
     "进度: 40.0% - 正在处理步骤 4/10",
     "进度: 50.0% - 正在处理步骤 5/10",
     "进度: 60.0% - 正在处理步骤 6/10",
     "进度: 70.0% - 正在处理步骤 7/10",
     "进度: 80.0% - 正在处理步骤 8/10",
     "进度: 90.0% - 正在处理步骤 9/10",
     "进度: 100.0% - 正在处理步骤 10/10",
     "中途检查点：任务进行顺利",
     "任务执行完成！"] := by
  have hr : List.range total_steps = [0, 1, 2, 3, 4, 5, 6, 7, 8, 9] := rfl
  simp only [outputLines, simulate_long_task, longTaskStep, hr]
  norm_num [longTaskPct_one, longTaskPct_two, longTaskPct_three, longTaskPct_four,
    longTaskPct_five, longTaskPct_six, longTaskPct_seven, longTaskPct_eight,
    longTaskPct_nine, longTaskPct_ten]
  rfl

lemma dataLines_eval : outputLines simulate_data_processing =
    ["开始数据处理任务...",
     "进度: 10.0% - 处理用户数据",
     "进度: 20.0% - 验证数据格式",
     "进度: 30.0% - 清理无效数据",
     "进度: 40.0% - 计算统计信息",
     "进度: 50.0% - 生成报告",
     "进度: 60.0% - 保存结果到数据库",
     "进度: 70.0% - 发送通知邮件",
     "进度: 80.0% - 清理临时文件",
     "进度: 90.0% - 更新缓存",
     "进度: 100.0% - 完成任务",
     "数据处理完成！"] := by
  have he : data_items.enum = [(0, "处理用户数据"), (1, "验证数据格式"),
      (2, "清理无效数据"), (3, "计算统计信息"), (4, "生成报告"),
      (5, "保存结果到数据库"), (6, "发送通知邮件"), (7, "清理临时文件"),
      (8, "更新缓存"), (9, "完成任务")] := rfl
  simp only [outputLines, simulate_data_processing, dataStep, he]
  norm_num [dataPct_one, dataPct_two, dataPct_three, dataPct_four, dataPct_five,
    dataPct_six, dataPct_seven, dataPct_eight, dataPct_nine, dataPct_ten]
  rfl

lemma long_ne_data : simulate_long_task ≠ simulate_data_processing := by
  intro h
  have h2 := congrArg outputLines h
  rw [longLines_eval, dataLines_eval] at h2
  exact absurd h2 (by decide)

lemma progMain_cases (argv : List String) :
    progMain argv = simulate_long_task ∨
      progMain argv = simulate_data_processing := by
  rcases argv with _ | ⟨a0, rest⟩
  · exact Or.inl rfl
  rcases rest with _ | ⟨a1, rest2⟩
  · exact Or.inl rfl
  by_cases h : a1 = "data"
  · right
    simp [progMain, h]
  · left
    simp [progMain, h]

lemma fmt1_specRound1 (x : ℚ) (m : ℕ) (h : 10 * x = (m : ℚ)) :
    fmt1 (specRound1 x) =
      toString ((m : ℤ) / 10) ++ "." ++ toString ((m : ℤ) % 10) := by
  unfold specRound1
  rw [h, round_natCast]
  exact fmt1_eval _ m (by push_cast; ring)

lemma runEvents_out (es : List Event) :
    ∀ t out, (runEvents ⟨t, out⟩ es).out = out ++ outputLines es := by
  induction es with
  | nil => intro t out; simp [runEvents, outputLines]
  | cons e rest ih =>
      intro t out
      cases e with
      | write s =>
          have h := ih t (out ++ [s])
          simpa [runEvents, stepEvent, outputLines, List.foldl] using h
      | flush =>
          have h := ih t out
          simpa [runEvents, stepEvent, outputLines, List.foldl] using h
      | sleep d =>
          have h := ih (t + d) out
          simpa [runEvents, stepEvent, outputLines, List.foldl] using h

end DemoProgress

namespace DemoProgress

/-- Claim C1 counterexample: run the default task (no extra argument); no
emitted line has the JSON-object shape, so in particular no machine-readable
JSON Progress line with `done = i` and `size = N` is ever emitted, contrary
to the claim. -/
theorem c1_counterexample :
    ((outputLines (progMain ["demo_progress.py"])).filter
      (fun l => isJsonLine l)).length = 0 := by
  have h : progMain ["demo_progress.py"] = simulate_long_task := rfl
  rw [h, longLines_eval]
  decide

/-- Claim C1 (amended): for every iteration `i` from 1 to `N = 10`, the
default task emits one human-readable progress line naming step `i` of
`N`, and these lines appear in strictly increasing order of `i` (the
sequence of progress lines is exactly steps 1, 2, ..., 10); no JSON
Progress line is emitted. -/
theorem c1_amended :
    (outputLines simulate_long_task).filter (fun l => isProgressLine l) =
      ["进度: 10.0% - 正在处理步骤 1/10",
       "进度: 20.0% - 正在处理步骤 2/10",
       "进度: 30.0% - 正在处理步骤 3/10",
       "进度: 40.0% - 正在处理步骤 4/10",
       "进度: 50.0% - 正在处理步骤 5/10",
       "进度: 60.0% - 正在处理步骤 6/10",
       "进度: 70.0% - 正在处理步骤 7/10",
       "进度: 80.0% - 正在处理步骤 8/10",
       "进度: 90.0% - 正在处理步骤 9/10",
       "进度: 100.0% - 正在处理步骤 10/10"] ∧
    (outputLines simulate_long_task).filter (fun l => isJsonLine l) = [] := by
  rw [longLines_eval]
  decide

/-- Claim C2 counterexample: in the default run with `N = 10`, the final
output line is not the JSON object `\x7b"Result": \x7b"pages": 10,
"words": 100\x7d\x7d`; it is the human-readable completion line. -/
theorem c2_counterexample :
    ¬ ((outputLines (progMain ["demo_progress.py"])).getLast? =
        some "\x7b\"Result\": \x7b\"pages\": 10, \"words\": 100\x7d\x7d") := by
  have h : progMain ["demo_progress.py"] = simulate_long_task := rfl
  rw [h, longLines_eval]
  decide

/-- Claim C2 (amended): in a run of the default task with `N = 10`,
exactly one completion line is emitted, it is the final output line of the
run (hence appears after the last progress line), and it is the
human-readable line `任务执行完成！`; no JSON Result line is emitted. -/
theorem c2_amended :
    (outputLines simulate_long_task).getLast? = some "任务执行完成！" ∧
    (outputLines simulate_long_task).count "任务执行完成！" = 1 ∧
    (outputLines simulate_long_task).filter (fun l => isJsonLine l) = [] := by
  rw [longLines_eval]
  decide

/-- Claim C3: in every run (any argument vector, hence either variant),
every `write` to stdout is immediately followed by a `flush`, before the
next sleep or write occurs. -/
theorem c3_every_write_flushed :
    ∀ argv : List String, writesFlushed (progMain argv) = true := by
  intro argv
  rcases progMain_cases argv with h | h <;> rw [h] <;> rfl

/-- Claim C3 witness: the guarantee at the concrete argument vector of a
default run. -/
theorem c3_every_write_flushed_witness :
    writesFlushed (progMain ["demo_progress.py"]) = true :=
  c3_every_write_flushed ["demo_progress.py"]

/-- Claim C4: for each step `i` in `1..10` of either variant (both have
`N = 10` total steps), the percentage displayed in the human-readable
progress line equals `round(100*i/N, 1)` formatted to one decimal place,
and for the default variant this is the exact sequence
`10.0, 20.0, ..., 100.0`. -/
theorem c4_percentage_rounding :
    (∀ i : Nat, 1 ≤ i → i ≤ 10 →
      longTaskPct i = fmt1 (specRound1 ((100 : ℚ) * (i : ℚ) / 10)) ∧
      dataPct i = fmt1 (specRound1 ((100 : ℚ) * (i : ℚ) / 10))) ∧
    (List.range 10).map (fun k => longTaskPct (k + 1)) =
      ["10.0", "20.0", "30.0", "40.0", "50.0",
       "60.0", "70.0", "80.0", "90.0", "100.0"] := by
  constructor
  · intro i h1 h2
    interval_cases i
    · exact ⟨by rw [longTaskPct_one, fmt1_specRound1 _ 100 (by norm_num)]; rfl,
        by rw [dataPct_one, fmt1_specRound1 _ 100 (by norm_num)]; rfl⟩
    · exact ⟨by rw [longTaskPct_two, fmt1_specRound1 _ 200 (by norm_num)]; rfl,
        by rw [dataPct_two, fmt1_specRound1 _ 200 (by norm_num)]; rfl⟩
    · exact ⟨by rw [longTaskPct_three, fmt1_specRound1 _ 300 (by norm_num)]; rfl,
        by rw [dataPct_three, fmt1_specRound1 _ 300 (by norm_num)]; rfl⟩
    · exact ⟨by rw [longTaskPct_four, fmt1_specRound1 _ 400 (by norm_num)]; rfl,
        by rw [dataPct_four, fmt1_specRound1 _ 400 (by norm_num)]; rfl⟩
    · exact ⟨by rw [longTaskPct_five, fmt1_specRound1 _ 500 (by norm_num)]; rfl,
        by rw [dataPct_five, fmt1_specRound1 _ 500 (by norm_num)]; rfl⟩
    · exact ⟨by rw [longTaskPct_six, fmt1_specRound1 _ 600 (by norm_num)]; rfl,
        by rw [dataPct_six, fmt1_specRound1 _ 600 (by norm_num)]; rfl⟩
    · exact ⟨by rw [longTaskPct_seven, fmt1_specRound1 _ 700 (by norm_num)]; rfl,
        by rw [dataPct_seven, fmt1_specRound1 _ 700 (by norm_num)]; rfl⟩
    · exact ⟨by rw [longTaskPct_eight, fmt1_specRound1 _ 800 (by norm_num)]; rfl,
        by rw [dataPct_eight, fmt1_specRound1 _ 800 (by norm_num)]; rfl⟩
    · exact ⟨by rw [longTaskPct_nine, fmt1_specRound1 _ 900 (by norm_num)]; rfl,
        by rw [dataPct_nine, fmt1_specRound1 _ 900 (by norm_num)]; rfl⟩
    · exact ⟨by rw [longTaskPct_ten, fmt1_specRound1 _ 1000 (by norm_num)]; rfl,
        by rw [dataPct_ten, fmt1_specRound1 _ 1000 (by norm_num)]; rfl⟩
  · have hr : List.range 10 = [0, 1, 2, 3, 4, 5, 6, 7, 8, 9] := rfl
    rw [hr]
    norm_num [longTaskPct_one, longTaskPct_two, longTaskPct_three,
      longTaskPct_four, longTaskPct_five, longTaskPct_six, longTaskPct_seven,
      longTaskPct_eight, longTaskPct_nine, longTaskPct_ten]

/-- Claim C4 witness: the pointwise statement applied at the concrete step
`i = 1`. -/
theorem c4_percentage_rounding_witness :
    longTaskPct 1 = fmt1 (specRound1 ((100 : ℚ) * ((1 : Nat) : ℚ) / 10)) :=
  (c4_percentage_rounding.1 1 (by norm_num) (by norm_num)).1

/-- Claim C5: for every argument vector, the data-processing variant runs
if and only if a first positional argument is present and equals the
token `data`; in every other case the default task simulation runs
(`argv` here is the full `sys.argv`, whose head is the script name). -/
theorem c5_dispatch :
    ∀ argv : List String,
      progMain argv = simulate_data_processing ↔
        ∃ a0 rest, argv = a0 :: "data" :: rest := by
  intro argv
  rcases argv with _ | ⟨a0, rest⟩
  · constructor
    · intro h
      exact absurd h long_ne_data
    · rintro ⟨a0, rest, h⟩
      cases h
  rcases rest with _ | ⟨a1, rest2⟩
  · constructor
    · intro h
      exact absurd h long_ne_data
    · rintro ⟨b0, rest, h⟩
      cases h
  by_cases h : a1 = "data"
  · subst h
    constructor
    · intro _
      exact ⟨a0, rest2, rfl⟩
    · intro _
      simp [progMain]
  · constructor
    · intro hEq
      rw [progMain] at hEq
      rw [if_neg h] at hEq
      exact absurd hEq long_ne_data
    · rintro ⟨b0, rest, hEq⟩
      cases hEq
      exact absurd rfl h

/-- Claim C5 witness: the dispatch equivalence at the concrete argument
vector `["demo_progress.py", "data"]`. -/
theorem c5_dispatch_witness :
    progMain ["demo_progress.py", "data"] = simulate_data_processing :=
  (c5_dispatch ["demo_progress.py", "data"]).mpr ⟨"demo_progress.py", [], rfl⟩

/-- Claim C6: in the alternate `data` mode, exactly 10 human-readable
progress lines are produced, one per entry of the fixed label list in its
fixed order (the `k`-th progress line carries the `k`-th label and the
`k`-th percentage), and no JSON line is emitted in that mode. -/
theorem c6_data_mode_lines :
    (outputLines simulate_data_processing).filter (fun l => isProgressLine l) =
      data_items.enum.map
        (fun p => "进度: " ++ dataPct (p.1 + 1) ++ "% - " ++ p.2) ∧
    ((outputLines simulate_data_processing).filter
      (fun l => isProgressLine l)).length = 10 ∧
    (outputLines simulate_data_processing).filter
      (fun l => isJsonLine l) = [] := by
  have he : data_items.enum = [(0, "处理用户数据"), (1, "验证数据格式"),
      (2, "清理无效数据"), (3, "计算统计信息"), (4, "生成报告"),
      (5, "保存结果到数据库"), (6, "发送通知邮件"), (7, "清理临时文件"),
      (8, "更新缓存"), (9, "完成任务")] := rfl
  rw [dataLines_eval, he]
  norm_num [dataPct_one, dataPct_two, dataPct_three, dataPct_four, dataPct_five,
    dataPct_six, dataPct_seven, dataPct_eight, dataPct_nine, dataPct_ten]
  decide

/-- Claim C7: the emitter is deterministic; the only run-dependent part of
the environment the script touches is the clock (through `time.sleep`),
and two runs with the same argument vector produce identical stdout line
sequences regardless of it, namely the lines of the selected variant's
trace. -/
theorem c7_deterministic :
    ∀ (t1 t2 : Nat) (argv : List String),
      (runProgram t1 argv).out = (runProgram t2 argv).out ∧
      (runProgram t1 argv).out = outputLines (progMain argv) := by
  intro t1 t2 argv
  have h1 := runEvents_out (progMain argv) t1 []
  have h2 := runEvents_out (progMain argv) t2 []
  constructor
  · unfold runProgram
    rw [h1, h2]
  · unfold runProgram
    rw [h1]
    simp

/-- Claim C7 witness: determinism at two concrete start times and a
concrete argument vector. -/
theorem c7_deterministic_witness :
    (runProgram 0 ["demo_progress.py"]).out =
      (runProgram 12345 ["demo_progress.py"]).out :=
  (c7_deterministic 0 12345 ["demo_progress.py"]).1

/-- Claim C8: in the default task, the checkpoint line appears exactly
once in the whole run, immediately after the progress line of the final
iteration (`i = N = 10`) and immediately before the completion line. -/
theorem c8_checkpoint :
    (outputLines simulate_long_task).count "中途检查点：任务进行顺利" = 1 ∧
    (outputLines simulate_long_task).drop 10 =
      ["进度: 100.0% - 正在处理步骤 10/10",
       "中途检查点：任务进行顺利",
       "任务执行完成！"] := by
  rw [longLines_eval]
  decide

/-- Claim C9: although the script imports the `json` module, no run of the
program, with any argument vector and hence in either variant, ever writes
a JSON-object line to standard output. -/
theorem c9_no_json :
    ∀ argv : List String,
      (outputLines (progMain argv)).all (fun l => !(isJsonLine l)) = true := by
  intro argv
  rcases progMain_cases argv with h | h <;> rw [h]
  · rw [longLines_eval]
    decide
  · rw [dataLines_eval]
    decide

/-- Claim C9 witness: absence of JSON-object lines in the concrete run of
the data variant. -/
theorem c9_no_json_witness :
    (outputLines (progMain ["demo_progress.py", "data"])).all
      (fun l => !(isJsonLine l)) = true :=
  c9_no_json ["demo_progress.py", "data"]

/-- Claim C10: the two variants display exactly the same sequence of
percentages; for every step `i` in `1..10`, `simulate_long_task` and
`simulate_data_processing` compute and format the same percentage string,
differing only in the accompanying message text. -/
theorem c10_same_percentages :
    (∀ i : Nat, 1 ≤ i → i ≤ 10 → longTaskPct i = dataPct i) ∧
    (List.range 10).map (fun k => dataPct (k + 1)) =
      (List.range 10).map (fun k => longTaskPct (k + 1)) := by
  constructor
  · intro i h1 h2
    interval_cases i
    · rw [longTaskPct_one, dataPct_one]
    · rw [longTaskPct_two, dataPct_two]
    · rw [longTaskPct_three, dataPct_three]
    · rw [longTaskPct_four, dataPct_four]
    · rw [longTaskPct_five, dataPct_five]
    · rw [longTaskPct_six, dataPct_six]
    · rw [longTaskPct_seven, dataPct_seven]
    · rw [longTaskPct_eight, dataPct_eight]
    · rw [longTaskPct_nine, dataPct_nine]
    · rw [longTaskPct_ten, dataPct_ten]
  · have hr : List.range 10 = [0, 1, 2, 3, 4, 5, 6, 7, 8, 9] := rfl
    rw [hr]
    norm_num [longTaskPct_one, longTaskPct_two, longTaskPct_three,
      longTaskPct_four, longTaskPct_five, longTaskPct_six, longTaskPct_seven,
      longTaskPct_eight, longTaskPct_nine, longTaskPct_ten,
      dataPct_one, dataPct_two, dataPct_three, dataPct_four, dataPct_five,
      dataPct_six, dataPct_seven, dataPct_eight, dataPct_nine, dataPct_ten]

/-- Claim C10 witness: the shared percentage string at the concrete step
`i = 1`. -/
theorem c10_same_percentages_witness : longTaskPct 1 = dataPct 1 :=
  c10_same_percentages.1 1 (by norm_num) (by norm_num)

end DemoProgress
